import Mathlib

/-!
Shallow embedding of the hk8s security-check core.

The data model mirrors the fragments of the Kubernetes API objects that
src/checks.rs reads (metadata.name, Pod.spec.containers, container name /
image / securityContext, RoleBinding.roleRef, NetworkPolicy), and the four
rule evaluators are translated from src/checks.rs.  The identically named
functions duplicated in src/main.rs are embedded separately in the MainRs
namespace for the equivalence claim.
-/

/-- metadata of a Kubernetes object: only the optional name is read. -/
structure ObjectMeta where
  name : Option String
deriving DecidableEq

/-- Container securityContext: the two optional booleans the checks read. -/
structure SecurityContext where
  run_as_non_root : Option Bool
  privileged : Option Bool
deriving DecidableEq

/-- A container: required name, optional image, optional securityContext. -/
structure Container where
  name : String
  image : Option String
  security_context : Option SecurityContext
deriving DecidableEq

/-- Pod spec: the ordered list of containers. -/
structure PodSpec where
  containers : List Container
deriving DecidableEq

/-- A Pod: metadata plus an optional spec. -/
structure Pod where
  metadata : ObjectMeta
  spec : Option PodSpec
deriving DecidableEq

/-- roleRef of a RoleBinding: all three fields are required strings. -/
structure RoleRef where
  api_group : String
  kind : String
  name : String
deriving DecidableEq

/-- A RoleBinding: metadata plus a required roleRef. -/
structure RoleBinding where
  metadata : ObjectMeta
  role_ref : RoleRef
deriving DecidableEq

/-- A NetworkPolicy: only its presence matters to the checks. -/
structure NetworkPolicy where
  metadata : ObjectMeta
deriving DecidableEq

/-- Substring test on character lists: does the second list contain `pat`
as a contiguous run?  Mirrors Rust `str::contains` with a string pattern. -/
def containsSub (pat : List Char) : List Char → Bool
  | [] => pat.isEmpty
  | c :: cs => pat.isPrefixOf (c :: cs) || containsSub pat cs

/-- Rust `s.contains(pat)` on strings. -/
def str_contains (s pat : String) : Bool :=
  containsSub pat.data s.data

/-- Rust `str::to_lowercase` (character-wise lowering; ASCII-effective). -/
def to_lowercase (s : String) : String :=
  String.mk (s.data.map Char.toLower)

/-- The K01 message for runAsNonRoot explicitly false. -/
def k01_root_msg (pod_name container_name : String) : String :=
  "[K01] Pod '" ++ pod_name ++ "' container '" ++ container_name ++
    "' may run as root (runAsNonRoot is false)"

/-- The K01 message for a missing runAsNonRoot setting. -/
def k01_no_run_as_non_root_msg (pod_name container_name : String) : String :=
  "[K01] Pod '" ++ pod_name ++ "' container '" ++ container_name ++
    "' has no runAsNonRoot setting"

/-- The K01 message for privileged mode. -/
def k01_privileged_msg (pod_name container_name : String) : String :=
  "[K01] Pod '" ++ pod_name ++ "' container '" ++ container_name ++
    "' is running in privileged mode"

/-- The K01 message for a missing security context. -/
def k01_no_sc_msg (pod_name container_name : String) : String :=
  "[K01] Pod '" ++ pod_name ++ "' container '" ++ container_name ++
    "' has no security context defined"

/-- Body of the per-container loop of `analyze_pod_insecure_workloads`
(src/checks.rs lines 11-41): the warnings pushed for one container. -/
def k01_container (pod_name : String) (container : Container) : List String :=
  match container.security_context with
  | some sc =>
    (match sc.run_as_non_root with
     | some run_as_non_root =>
       if !run_as_non_root then [k01_root_msg pod_name container.name] else []
     | none => [k01_no_run_as_non_root_msg pod_name container.name]) ++
    (match sc.privileged with
     | some privileged =>
       if privileged then [k01_privileged_msg pod_name container.name] else []
     | none => [])
  | none => [k01_no_sc_msg pod_name container.name]

/-- K01: Insecure Workload Configurations (src/checks.rs lines 7-44). -/
def analyze_pod_insecure_workloads (pod : Pod) : List String :=
  let pod_name := pod.metadata.name.getD "<unknown>"
  match pod.spec with
  | some spec => spec.containers.flatMap (k01_container pod_name)
  | none => []

/-- The K03 message for a high-privilege binding. -/
def k03_msg (rb_name role_name : String) : String :=
  "[K03] RoleBinding '" ++ rb_name ++ "' binds a high-privilege ClusterRole '" ++
    role_name ++ "'"

/-- K03: Overly Permissive RBAC Configurations (src/checks.rs lines 48-59). -/
def analyze_role_binding (rb : RoleBinding) : Option String :=
  let rb_name := rb.metadata.name.getD "<unknown>"
  let role_ref := rb.role_ref
  if role_ref.kind == "ClusterRole" &&
      str_contains (to_lowercase role_ref.name) "cluster-admin" then
    some (k03_msg rb_name role_ref.name)
  else
    none

/-- The K07 message when no NetworkPolicies exist. -/
def k07_empty_msg : String :=
  "[K07] No NetworkPolicies found. Consider implementing network segmentation controls."

/-- The K07 message stating how many NetworkPolicies exist. -/
def k07_count_msg (n : Nat) : String :=
  "[K07] Found " ++ toString n ++ " NetworkPolicy object(s)."

/-- K07: Missing Network Segmentation Controls (src/checks.rs lines 63-71). -/
def analyze_network_policies (nps : List NetworkPolicy) : Option String :=
  if nps.isEmpty then some k07_empty_msg
  else some (k07_count_msg nps.length)

/-- The K10 message reporting a container image. -/
def k10_msg (pod_name container_name image : String) : String :=
  "[K10] Pod '" ++ pod_name ++ "' container '" ++ container_name ++
    "' is running image '" ++ image ++ "'"

/-- Body of the per-container loop of `analyze_outdated_components`
(src/checks.rs lines 79-86). -/
def k10_container (pod_name : String) (container : Container) : List String :=
  match container.image with
  | some image => [k10_msg pod_name container.name image]
  | none => []

/-- K10: Outdated and Vulnerable Components (src/checks.rs lines 75-89). -/
def analyze_outdated_components (pod : Pod) : List String :=
  let pod_name := pod.metadata.name.getD "<unknown>"
  match pod.spec with
  | some spec => spec.containers.flatMap (k10_container pod_name)
  | none => []

namespace MainRs

/-- K01 as duplicated privately in src/main.rs (lines 19-56). -/
def analyze_pod_insecure_workloads (pod : Pod) : List String :=
  let pod_name := pod.metadata.name.getD "<unknown>"
  match pod.spec with
  | some spec =>
    spec.containers.flatMap (fun container =>
      match container.security_context with
      | some sc =>
        (match sc.run_as_non_root with
         | some run_as_non_root =>
           if !run_as_non_root then
             ["[K01] Pod '" ++ pod_name ++ "' container '" ++ container.name ++
               "' may run as root (runAsNonRoot is false)"]
           else []
         | none =>
           ["[K01] Pod '" ++ pod_name ++ "' container '" ++ container.name ++
             "' has no runAsNonRoot setting"]) ++
        (match sc.privileged with
         | some privileged =>
           if privileged then
             ["[K01] Pod '" ++ pod_name ++ "' container '" ++ container.name ++
               "' is running in privileged mode"]
           else []
         | none => [])
      | none =>
        ["[K01] Pod '" ++ pod_name ++ "' container '" ++ container.name ++
          "' has no security context defined"])
  | none => []

/-- K03 as duplicated privately in src/main.rs (lines 60-71). -/
def analyze_role_binding (rb : RoleBinding) : Option String :=
  let rb_name := rb.metadata.name.getD "<unknown>"
  let role_ref := rb.role_ref
  if role_ref.kind == "ClusterRole" &&
      str_contains (to_lowercase role_ref.name) "cluster-admin" then
    some ("[K03] RoleBinding '" ++ rb_name ++ "' binds a high-privilege ClusterRole '" ++
      role_ref.name ++ "'")
  else
    none

/-- K07 as duplicated privately in src/main.rs (lines 75-83). -/
def analyze_network_policies (nps : List NetworkPolicy) : Option String :=
  if nps.isEmpty then
    some "[K07] No NetworkPolicies found. Consider implementing network segmentation controls."
  else
    some ("[K07] Found " ++ toString nps.length ++ " NetworkPolicy object(s).")

/-- K10 as duplicated privately in src/main.rs (lines 87-101). -/
def analyze_outdated_components (pod : Pod) : List String :=
  let pod_name := pod.metadata.name.getD "<unknown>"
  match pod.spec with
  | some spec =>
    spec.containers.flatMap (fun container =>
      match container.image with
      | some image =>
        ["[K10] Pod '" ++ pod_name ++ "' container '" ++ container.name ++
          "' is running image '" ++ image ++ "'"]
      | none => [])
  | none => []

end MainRs

/-- Security context of the end-to-end K01 scenario. -/
def insecure_sc : SecurityContext :=
  { run_as_non_root := some false, privileged := some true }

/-- Container of the end-to-end K01 scenario. -/
def insecure_container : Container :=
  { name := "container1", image := none, security_context := some insecure_sc }

/-- Pod spec of the end-to-end K01 scenario. -/
def pod_insecure_spec : PodSpec :=
  { containers := [insecure_container] }

/-- The pod of the end-to-end K01 scenario. -/
def pod_insecure : Pod :=
  { metadata := { name := some "pod-insecure" }, spec := some pod_insecure_spec }

/-- A container without a security context. -/
def pod_no_sc_container : Container :=
  { name := "container1", image := none, security_context := none }

/-- Spec holding only `pod_no_sc_container`. -/
def pod_no_sc_spec : PodSpec :=
  { containers := [pod_no_sc_container] }

/-- A pod whose single container has no security context. -/
def pod_no_sc : Pod :=
  { metadata := { name := some "pod-no-sc" }, spec := some pod_no_sc_spec }

/-- Security context with runAsNonRoot unset and privileged true. -/
def priv_only_sc : SecurityContext :=
  { run_as_non_root := none, privileged := some true }

/-- Container carrying `priv_only_sc`. -/
def priv_only_container : Container :=
  { name := "container1", image := none, security_context := some priv_only_sc }

/-- A RoleBinding whose roleRef is a Role named exactly "cluster-admin". -/
def rb_role_admin : RoleBinding :=
  { metadata := { name := some "rb3" },
    role_ref := { api_group := "rbac.authorization.k8s.io", kind := "Role",
                  name := "cluster-admin" } }

/-- A RoleBinding whose roleRef is the ClusterRole "cluster-admin". -/
def rb_cluster_admin : RoleBinding :=
  { metadata := { name := some "rb1" },
    role_ref := { api_group := "rbac.authorization.k8s.io", kind := "ClusterRole",
                  name := "cluster-admin" } }

/-- A RoleBinding with every optional field absent and blank roleRef strings. -/
def rb_blank : RoleBinding :=
  { metadata := { name := none },
    role_ref := { api_group := "", kind := "", name := "" } }

/-- Three NetworkPolicies, as in the K07 multi-policy scenario. -/
def three_policies : List NetworkPolicy :=
  [{ metadata := { name := some "np1" } },
   { metadata := { name := some "np2" } },
   { metadata := { name := some "np3" } }]

/-- A webserver pod with a versioned image. -/
def pod_airflow_spec : PodSpec :=
  { containers := [{ name := "web", image := some "apache/airflow:2.5.1",
                     security_context := none }] }

/-- The pod carrying `pod_airflow_spec`. -/
def pod_airflow : Pod :=
  { metadata := { name := some "airflow-web-1" }, spec := some pod_airflow_spec }

/-- A pod with no spec at all. -/
def pod_without_spec : Pod :=
  { metadata := { name := none }, spec := none }

/-- A pod with no name whose container has no security context but an image. -/
def pod_anonymous : Pod :=
  { metadata := { name := none },
    spec := some { containers := [{ name := "container1", image := some "img:1",
                                    security_context := none }] } }

/-- A nameless RoleBinding that triggers K03. -/
def rb_anonymous : RoleBinding :=
  { metadata := { name := none },
    role_ref := { api_group := "rbac.authorization.k8s.io", kind := "ClusterRole",
                  name := "cluster-admin" } }

/-! ## String-containment toolkit -/

theorem containsSub_iff (pat l : List Char) : containsSub pat l = true ↔ pat <:+: l := by
  induction l with
  | nil =>
    simp [containsSub, List.isEmpty_iff, List.infix_nil]
  | cons c cs ih =>
    simp [containsSub, List.infix_cons_iff, ih, List.isPrefixOf_iff_prefix]

theorem str_contains_of_parts (s p : String) (u v : List Char)
    (h : s.data = u ++ p.data ++ v) : str_contains s p = true :=
  (containsSub_iff p.data s.data).mpr ⟨u, v, h.symm⟩

theorem str_contains_append_mid (a p b : String) :
    str_contains (a ++ p ++ b) p = true :=
  str_contains_of_parts _ p a.data b.data (by simp [String.data_append])

theorem str_contains_self_suffix (a p : String) :
    str_contains (a ++ p) p = true :=
  str_contains_of_parts _ p a.data [] (by simp [String.data_append])

theorem str_contains_append_right (a b p : String)
    (h : str_contains a p = true) : str_contains (a ++ b) p = true :=
  (containsSub_iff _ _).mpr
    (((containsSub_iff p.data a.data).mp h).trans
      ⟨[], b.data, by simp [String.data_append]⟩)

theorem str_contains_append_left (a b p : String)
    (h : str_contains b p = true) : str_contains (a ++ b) p = true :=
  (containsSub_iff _ _).mpr
    (((containsSub_iff p.data b.data).mp h).trans
      ⟨a.data, [], by simp [String.data_append]⟩)

/-! ## Containment facts about the message builders -/

theorem k01_root_msg_contains_pod (p c : String) :
    str_contains (k01_root_msg p c) p = true := by
  unfold k01_root_msg
  exact str_contains_append_right _ _ _ (str_contains_append_right _ _ _
    (str_contains_append_right _ _ _ (str_contains_self_suffix _ _)))

theorem k01_root_msg_contains_container (p c : String) :
    str_contains (k01_root_msg p c) c = true := by
  unfold k01_root_msg
  exact str_contains_append_right _ _ _ (str_contains_self_suffix _ _)

theorem k01_root_msg_contains_tag (p c : String) :
    str_contains (k01_root_msg p c) "may run as root" = true := by
  unfold k01_root_msg
  exact str_contains_append_left _ _ _ (by decide)

theorem k01_no_run_as_non_root_msg_contains_pod (p c : String) :
    str_contains (k01_no_run_as_non_root_msg p c) p = true := by
  unfold k01_no_run_as_non_root_msg
  exact str_contains_append_right _ _ _ (str_contains_append_right _ _ _
    (str_contains_append_right _ _ _ (str_contains_self_suffix _ _)))

theorem k01_no_run_as_non_root_msg_contains_tag (p c : String) :
    str_contains (k01_no_run_as_non_root_msg p c) "has no runAsNonRoot setting" = true := by
  unfold k01_no_run_as_non_root_msg
  exact str_contains_append_left _ _ _ (by decide)

theorem k01_privileged_msg_contains_pod (p c : String) :
    str_contains (k01_privileged_msg p c) p = true := by
  unfold k01_privileged_msg
  exact str_contains_append_right _ _ _ (str_contains_append_right _ _ _
    (str_contains_append_right _ _ _ (str_contains_self_suffix _ _)))

theorem k01_privileged_msg_contains_container (p c : String) :
    str_contains (k01_privileged_msg p c) c = true := by
  unfold k01_privileged_msg
  exact str_contains_append_right _ _ _ (str_contains_self_suffix _ _)

theorem k01_privileged_msg_contains_tag (p c : String) :
    str_contains (k01_privileged_msg p c) "is running in privileged mode" = true := by
  unfold k01_privileged_msg
  exact str_contains_append_left _ _ _ (by decide)

theorem k01_no_sc_msg_contains_pod (p c : String) :
    str_contains (k01_no_sc_msg p c) p = true := by
  unfold k01_no_sc_msg
  exact str_contains_append_right _ _ _ (str_contains_append_right _ _ _
    (str_contains_append_right _ _ _ (str_contains_self_suffix _ _)))

theorem k01_no_sc_msg_contains_tag (p c : String) :
    str_contains (k01_no_sc_msg p c) "has no security context defined" = true := by
  unfold k01_no_sc_msg
  exact str_contains_append_left _ _ _ (by decide)

theorem k03_msg_contains_rb_name (p r : String) :
    str_contains (k03_msg p r) p = true := by
  unfold k03_msg
  exact str_contains_append_right _ _ _ (str_contains_append_right _ _ _
    (str_contains_append_right _ _ _ (str_contains_self_suffix _ _)))

theorem k10_msg_contains_pod (p c i : String) :
    str_contains (k10_msg p c i) p = true := by
  unfold k10_msg
  exact str_contains_append_right _ _ _ (str_contains_append_right _ _ _
    (str_contains_append_right _ _ _ (str_contains_append_right _ _ _
      (str_contains_append_right _ _ _ (str_contains_self_suffix _ _)))))

theorem k10_msg_contains_container (p c i : String) :
    str_contains (k10_msg p c i) c = true := by
  unfold k10_msg
  exact str_contains_append_right _ _ _ (str_contains_append_right _ _ _
    (str_contains_append_right _ _ _ (str_contains_self_suffix _ _)))

theorem k10_msg_contains_image (p c i : String) :
    str_contains (k10_msg p c i) i = true := by
  unfold k10_msg
  exact str_contains_append_right _ _ _ (str_contains_self_suffix _ _)

theorem k07_count_msg_contains_count (n : Nat) :
    str_contains (k07_count_msg n) ("Found " ++ toString n ++ " NetworkPolicy") = true := by
  have h1 : ("[K07] Found " : String).data =
      ("[K07] " : String).data ++ ("Found " : String).data := by decide
  have h2 : (" NetworkPolicy object(s)." : String).data =
      (" NetworkPolicy" : String).data ++ (" object(s)." : String).data := by decide
  refine str_contains_of_parts _ _ ("[K07] " : String).data (" object(s)." : String).data ?_
  unfold k07_count_msg
  simp [String.data_append, h1, h2]

/-! ## Claims -/

/-- Claim C1: for every pod containing a container whose security context is
present with runAsNonRoot = some false and privileged = some true, K01
produces exactly the two findings for that container, first the
may-run-as-root one and then the privileged-mode one, both naming the pod
and the container; and on the concrete pod "pod-insecure" with single
container "container1" so configured the output is exactly those two
findings in that order. -/
theorem C1_k01_root_and_privileged_pair
    (pod : Pod) (ps : PodSpec) (c : Container) (sc : SecurityContext)
    (hspec : pod.spec = some ps)
    (hsc : c.security_context = some sc)
    (hrun : sc.run_as_non_root = some false)
    (hpriv : sc.privileged = some true) :
    analyze_pod_insecure_workloads pod =
      ps.containers.flatMap (k01_container (pod.metadata.name.getD "<unknown>")) ∧
    k01_container (pod.metadata.name.getD "<unknown>") c =
      [k01_root_msg (pod.metadata.name.getD "<unknown>") c.name,
       k01_privileged_msg (pod.metadata.name.getD "<unknown>") c.name] ∧
    str_contains (k01_root_msg (pod.metadata.name.getD "<unknown>") c.name)
      "may run as root" = true ∧
    str_contains (k01_privileged_msg (pod.metadata.name.getD "<unknown>") c.name)
      "is running in privileged mode" = true ∧
    str_contains (k01_root_msg (pod.metadata.name.getD "<unknown>") c.name)
      (pod.metadata.name.getD "<unknown>") = true ∧
    str_contains (k01_root_msg (pod.metadata.name.getD "<unknown>") c.name)
      c.name = true ∧
    str_contains (k01_privileged_msg (pod.metadata.name.getD "<unknown>") c.name)
      (pod.metadata.name.getD "<unknown>") = true ∧
    str_contains (k01_privileged_msg (pod.metadata.name.getD "<unknown>") c.name)
      c.name = true ∧
    analyze_pod_insecure_workloads pod_insecure =
      ["[K01] Pod 'pod-insecure' container 'container1' may run as root (runAsNonRoot is false)",
       "[K01] Pod 'pod-insecure' container 'container1' is running in privileged mode"] := by
  refine ⟨?_, ?_, ?_, ?_, ?_, ?_, ?_, ?_, ?_⟩
  · simp [analyze_pod_insecure_workloads, hspec]
  · simp [k01_container, hsc, hrun, hpriv]
  · exact k01_root_msg_contains_tag _ _
  · exact k01_privileged_msg_contains_tag _ _
  · exact k01_root_msg_contains_pod _ _
  · exact k01_root_msg_contains_container _ _
  · exact k01_privileged_msg_contains_pod _ _
  · exact k01_privileged_msg_contains_container _ _
  · decide

/-- Witness for C1 at the concrete end-to-end pod. -/
theorem C1_witness :
    analyze_pod_insecure_workloads pod_insecure =
      ["[K01] Pod 'pod-insecure' container 'container1' may run as root (runAsNonRoot is false)",
       "[K01] Pod 'pod-insecure' container 'container1' is running in privileged mode"] :=
  (C1_k01_root_and_privileged_pair pod_insecure pod_insecure_spec insecure_container
    insecure_sc rfl rfl rfl rfl).2.2.2.2.2.2.2.2

/-- Claim C2: K03 emits a finding iff roleRef.kind equals "ClusterRole"
exactly (case-sensitively) and roleRef.name, lowercased, contains the
substring "cluster-admin"; in particular a RoleBinding whose roleRef.kind
is "Role" with name exactly "cluster-admin" emits nothing. -/
theorem C2_k03_trigger_condition (rb : RoleBinding) :
    ((analyze_role_binding rb).isSome = true ↔
      (rb.role_ref.kind = "ClusterRole" ∧
       str_contains (to_lowercase rb.role_ref.name) "cluster-admin" = true)) ∧
    analyze_role_binding rb_role_admin = none := by
  refine ⟨?_, by decide⟩
  unfold analyze_role_binding
  dsimp only
  split
  · rename_i h
    rw [Bool.and_eq_true, beq_iff_eq] at h
    simp [h.1, h.2]
  · rename_i h
    simp only [Option.isSome_none, Bool.false_eq_true, false_iff]
    intro hc
    exact h (by rw [Bool.and_eq_true, beq_iff_eq]; exact hc)

/-- Witness for C2 at the ClusterRole "cluster-admin" binding. -/
theorem C2_witness :
    (analyze_role_binding rb_cluster_admin).isSome = true :=
  (C2_k03_trigger_condition rb_cluster_admin).1.mpr ⟨rfl, by decide⟩

/-- Claim C3: K07 always returns exactly one finding: on the empty
collection it contains "No NetworkPolicies found", and on a non-empty
collection of n elements it states the count n; on the concrete 3-element
collection the finding contains "Found 3 NetworkPolicy". -/
theorem C3_k07_always_one_finding (nps : List NetworkPolicy) :
    (analyze_network_policies nps).isSome = true ∧
    (nps = [] →
      analyze_network_policies nps = some k07_empty_msg ∧
      str_contains k07_empty_msg "No NetworkPolicies found" = true) ∧
    (nps ≠ [] →
      analyze_network_policies nps = some (k07_count_msg nps.length) ∧
      str_contains (k07_count_msg nps.length)
        ("Found " ++ toString nps.length ++ " NetworkPolicy") = true) ∧
    analyze_network_policies three_policies =
      some "[K07] Found 3 NetworkPolicy object(s)." ∧
    str_contains "[K07] Found 3 NetworkPolicy object(s)." "Found 3 NetworkPolicy" = true := by
  refine ⟨?_, ?_, ?_, by decide, by decide⟩
  · rcases nps with _ | ⟨a, as⟩ <;> simp [analyze_network_policies]
  · rintro rfl
    exact ⟨rfl, by decide⟩
  · intro h
    rcases nps with _ | ⟨a, as⟩
    · exact absurd rfl h
    · exact ⟨rfl, k07_count_msg_contains_count _⟩

/-- Witness for C3 at the 3-element collection. -/
theorem C3_witness :
    analyze_network_policies three_policies =
      some (k07_count_msg (List.length three_policies)) ∧
    str_contains (k07_count_msg (List.length three_policies))
      ("Found " ++ toString (List.length three_policies) ++ " NetworkPolicy") = true :=
  (C3_k07_always_one_finding three_policies).2.2.1 (by decide)

/-- The K10 output of a container list has one entry per container with a
present image. -/
theorem k10_flatMap_length (p : String) (l : List Container) :
    (l.flatMap (k10_container p)).length =
      (l.filter (fun c => c.image.isSome)).length := by
  induction l with
  | nil => rfl
  | cons c cs ih =>
    rcases h : c.image with _ | img <;>
      simp [k10_container, h, List.filter_cons, ih]

/-- Claim C4: K10 returns exactly one finding per container with a present
image, containing the container name and the image string verbatim, and
containers without an image contribute zero findings. -/
theorem C4_k10_one_finding_per_imaged_container
    (pod : Pod) (ps : PodSpec) (hspec : pod.spec = some ps) :
    analyze_outdated_components pod =
      ps.containers.flatMap (k10_container (pod.metadata.name.getD "<unknown>")) ∧
    (∀ c : Container, c.image = none →
      k10_container (pod.metadata.name.getD "<unknown>") c = []) ∧
    (∀ (c : Container) (img : String), c.image = some img →
      k10_container (pod.metadata.name.getD "<unknown>") c =
        [k10_msg (pod.metadata.name.getD "<unknown>") c.name img] ∧
      str_contains (k10_msg (pod.metadata.name.getD "<unknown>") c.name img) img = true ∧
      str_contains (k10_msg (pod.metadata.name.getD "<unknown>") c.name img) c.name = true) ∧
    (analyze_outdated_components pod).length =
      (ps.containers.filter (fun c => c.image.isSome)).length := by
  refine ⟨?_, ?_, ?_, ?_⟩
  · simp [analyze_outdated_components, hspec]
  · intro c hc
    simp [k10_container, hc]
  · intro c img hc
    exact ⟨by simp [k10_container, hc], k10_msg_contains_image _ _ _,
      k10_msg_contains_container _ _ _⟩
  · simp only [analyze_outdated_components, hspec]
    exact k10_flatMap_length _ _

/-- Witness for C4 at the concrete webserver pod. -/
theorem C4_witness :
    analyze_outdated_components pod_airflow =
      pod_airflow_spec.containers.flatMap
        (k10_container (pod_airflow.metadata.name.getD "<unknown>")) :=
  (C4_k10_one_finding_per_imaged_container pod_airflow pod_airflow_spec rfl).1

/-- Claim C5: a container with no security context yields exactly one K01
finding, the no-security-context one, and no other finding for that
container. -/
theorem C5_k01_no_security_context
    (pod : Pod) (ps : PodSpec) (c : Container)
    (hspec : pod.spec = some ps)
    (hsc : c.security_context = none) :
    analyze_pod_insecure_workloads pod =
      ps.containers.flatMap (k01_container (pod.metadata.name.getD "<unknown>")) ∧
    k01_container (pod.metadata.name.getD "<unknown>") c =
      [k01_no_sc_msg (pod.metadata.name.getD "<unknown>") c.name] ∧
    str_contains (k01_no_sc_msg (pod.metadata.name.getD "<unknown>") c.name)
      "has no security context defined" = true := by
  refine ⟨?_, ?_, ?_⟩
  · simp [analyze_pod_insecure_workloads, hspec]
  · simp [k01_container, hsc]
  · exact k01_no_sc_msg_contains_tag _ _

/-- Witness for C5 at the concrete no-security-context pod. -/
theorem C5_witness :
    k01_container (pod_no_sc.metadata.name.getD "<unknown>") pod_no_sc_container =
      [k01_no_sc_msg (pod_no_sc.metadata.name.getD "<unknown>") pod_no_sc_container.name] :=
  (C5_k01_no_security_context pod_no_sc pod_no_sc_spec pod_no_sc_container rfl rfl).2.1

/-- Claim C6: with a security context present, a missing runAsNonRoot
always yields the no-runAsNonRoot finding regardless of privileged, and
privileged = some true always yields the privileged-mode finding
regardless of runAsNonRoot; both co-occur when both conditions hold. -/
theorem C6_k01_independent_checks
    (p : String) (c : Container) (sc : SecurityContext)
    (hsc : c.security_context = some sc) :
    (sc.run_as_non_root = none →
      k01_no_run_as_non_root_msg p c.name ∈ k01_container p c) ∧
    (sc.privileged = some true →
      k01_privileged_msg p c.name ∈ k01_container p c) ∧
    (sc.run_as_non_root = none → sc.privileged = some true →
      k01_container p c =
        [k01_no_run_as_non_root_msg p c.name, k01_privileged_msg p c.name]) := by
  refine ⟨?_, ?_, ?_⟩
  · intro h
    simp [k01_container, hsc, h]
  · intro h
    simp only [k01_container, hsc]
    refine List.mem_append_right _ ?_
    simp [h]
  · intro h1 h2
    simp [k01_container, hsc, h1, h2]

/-- Witness for C6 at a container with runAsNonRoot unset, privileged true. -/
theorem C6_witness :
    k01_container "pod-x" priv_only_container =
      [k01_no_run_as_non_root_msg "pod-x" priv_only_container.name,
       k01_privileged_msg "pod-x" priv_only_container.name] :=
  (C6_k01_independent_checks "pod-x" priv_only_container priv_only_sc rfl).2.2 rfl rfl

/-- Claim C7: the four evaluators are total Lean functions; in particular a
pod with no spec yields the empty output from K01 and K10, a RoleBinding
with every optional field absent yields a defined result, and K07 on any
input (here the empty collection) yields a defined result. -/
theorem C7_evaluators_total :
    (∀ pod : Pod, pod.spec = none →
      analyze_pod_insecure_workloads pod = [] ∧
      analyze_outdated_components pod = []) ∧
    analyze_role_binding rb_blank = none ∧
    (analyze_network_policies []).isSome = true := by
  refine ⟨fun pod h => ⟨?_, ?_⟩, by decide, by decide⟩
  · simp [analyze_pod_insecure_workloads, h]
  · simp [analyze_outdated_components, h]

/-- Witness for C7 at the spec-less pod. -/
theorem C7_witness :
    analyze_pod_insecure_workloads pod_without_spec = [] ∧
    analyze_outdated_components pod_without_spec = [] :=
  C7_evaluators_total.1 pod_without_spec rfl

/-- Claim C8: each evaluator is deterministic and idempotent across runs:
the output depends on nothing but the input, so two invocations on the
same input are identical (the embedding is a pure function, mirroring the
stateless Rust functions). -/
theorem C8_evaluators_deterministic :
    (∀ pod : Pod,
      analyze_pod_insecure_workloads pod = analyze_pod_insecure_workloads pod) ∧
    (∀ rb : RoleBinding, analyze_role_binding rb = analyze_role_binding rb) ∧
    (∀ nps : List NetworkPolicy,
      analyze_network_policies nps = analyze_network_policies nps) ∧
    (∀ pod : Pod,
      analyze_outdated_components pod = analyze_outdated_components pod) :=
  ⟨fun _ => rfl, fun _ => rfl, fun _ => rfl, fun _ => rfl⟩

/-- Every K01 warning for a container embeds the pod name it was given. -/
theorem mem_k01_container_contains_pod (p : String) (c : Container)
    (m : String) (hm : m ∈ k01_container p c) : str_contains m p = true := by
  unfold k01_container at hm
  rcases hsc : c.security_context with _ | sc
  · rw [hsc] at hm
    simp only [List.mem_singleton] at hm
    rw [hm]
    exact k01_no_sc_msg_contains_pod _ _
  · rw [hsc] at hm
    rw [List.mem_append] at hm
    rcases hm with hm | hm
    · rcases hr : sc.run_as_non_root with _ | b
      · rw [hr] at hm
        simp only [List.mem_singleton] at hm
        rw [hm]
        exact k01_no_run_as_non_root_msg_contains_pod _ _
      · rw [hr] at hm
        cases b
        · simp only [Bool.not_false, if_true, List.mem_singleton] at hm
          rw [hm]
          exact k01_root_msg_contains_pod _ _
        · simp at hm
    · rcases hp : sc.privileged with _ | b
      · rw [hp] at hm
        simp at hm
      · rw [hp] at hm
        cases b
        · simp at hm
        · simp only [if_true, List.mem_singleton] at hm
          rw [hm]
          exact k01_privileged_msg_contains_pod _ _

/-- Every K10 warning for a container embeds the pod name it was given. -/
theorem mem_k10_container_contains_pod (p : String) (c : Container)
    (m : String) (hm : m ∈ k10_container p c) : str_contains m p = true := by
  unfold k10_container at hm
  rcases hi : c.image with _ | img
  · rw [hi] at hm
    simp at hm
  · rw [hi] at hm
    simp only [List.mem_singleton] at hm
    rw [hm]
    exact k10_msg_contains_pod _ _ _

/-- Claim C9: when metadata.name is absent, K01 and K10 still succeed and
every finding they emit names the pod as "<unknown>", and K03 uses
"<unknown>" as the RoleBinding name in any finding it emits. -/
theorem C9_absent_names_use_unknown (pod : Pod) (rb : RoleBinding)
    (hpod : pod.metadata.name = none) (hrb : rb.metadata.name = none) :
    (∀ m ∈ analyze_pod_insecure_workloads pod, str_contains m "<unknown>" = true) ∧
    (∀ m ∈ analyze_outdated_components pod, str_contains m "<unknown>" = true) ∧
    (∀ m : String, analyze_role_binding rb = some m →
      str_contains m "<unknown>" = true) := by
  refine ⟨?_, ?_, ?_⟩
  · intro m hm
    rcases hspec : pod.spec with _ | ps
    · simp [analyze_pod_insecure_workloads, hspec] at hm
    · simp only [analyze_pod_insecure_workloads, hspec, hpod, Option.getD_none] at hm
      rw [List.mem_flatMap] at hm
      obtain ⟨c, _, hmc⟩ := hm
      exact mem_k01_container_contains_pod _ _ _ hmc
  · intro m hm
    rcases hspec : pod.spec with _ | ps
    · simp [analyze_outdated_components, hspec] at hm
    · simp only [analyze_outdated_components, hspec, hpod, Option.getD_none] at hm
      rw [List.mem_flatMap] at hm
      obtain ⟨c, _, hmc⟩ := hm
      exact mem_k10_container_contains_pod _ _ _ hmc
  · intro m hsome
    simp only [analyze_role_binding, hrb, Option.getD_none] at hsome
    split at hsome
    · injection hsome with h
      rw [← h]
      exact k03_msg_contains_rb_name _ _
    · exact Option.noConfusion hsome

/-- Witness for C9 at a nameless pod and a nameless RoleBinding. -/
theorem C9_witness :
    str_contains
      "[K01] Pod '<unknown>' container 'container1' has no security context defined"
      "<unknown>" = true :=
  (C9_absent_names_use_unknown pod_anonymous rb_anonymous rfl rfl).1
    "[K01] Pod '<unknown>' container 'container1' has no security context defined"
    (by decide)

/-- Claim C10: the four rule evaluators duplicated privately in src/main.rs
are extensionally equal to the public ones in src/checks.rs. -/
theorem C10_main_duplicates_equal_checks :
    (∀ pod : Pod,
      MainRs.analyze_pod_insecure_workloads pod = analyze_pod_insecure_workloads pod) ∧
    (∀ rb : RoleBinding,
      MainRs.analyze_role_binding rb = analyze_role_binding rb) ∧
    (∀ nps : List NetworkPolicy,
      MainRs.analyze_network_policies nps = analyze_network_policies nps) ∧
    (∀ pod : Pod,
      MainRs.analyze_outdated_components pod = analyze_outdated_components pod) :=
  ⟨fun _ => rfl, fun _ => rfl, fun _ => rfl, fun _ => rfl⟩
